import Mathlib

/-!
# Verification of the traderfm anonymous Q&A backend

A shallow embedding of the authenticated-write data model and request
lifecycle of the traderfm repository: the sqlite-backed store
(`src/backend/src/utils/database.js`), the express-validator rules
(`src/unnamed/part_016`, i.e. the backend validation middleware), the
route handlers for users, questions, answers and stats
(`src/backend/src/routes/*.js`, `src/unnamed/part_008`), the rate-limiter
wiring of `src/backend/src/index.js`, and the frontend question-form
checks (`src/frontend/src/utils/validation.js`,
`src/frontend/src/pages/ProfilePage.jsx`).

Rows are modelled as structures, tables as lists, AUTOINCREMENT keys as
counters in the `DB` state, and each HTTP endpoint as a function from the
pre-state and request data to an HTTP status plus the post-state.
-/

namespace TraderFM

/-- `auth_type` column of the `users` table: `CHECK` constraining `auth_type` to `secret_key` or `twitter`. -/
inductive AuthType where
  | secretKey
  | twitter
deriving DecidableEq, Repr

/-- A row of the `users` table (the columns the question/answer lifecycle reads).
`secretKey` holds the bcrypt hash stored by `createUser`, `none` for Twitter users. -/
structure UserRow where
  id : Nat
  handle : String
  secretKey : Option String
  authType : AuthType
deriving DecidableEq, Repr

/-- A row of the `questions` table. -/
structure QuestionRow where
  id : Nat
  userId : Nat
  text : String
  ipAddress : String
deriving DecidableEq, Repr

/-- A row of the `answers` table. -/
structure AnswerRow where
  id : Nat
  questionId : Nat
  userId : Nat
  questionText : String
  answerText : String
deriving DecidableEq, Repr

/-- The persistent store: the three tables of the Q&A core plus their
AUTOINCREMENT counters (sqlite rowids start at 1 and are never reused). -/
structure DB where
  users : List UserRow
  questions : List QuestionRow
  answers : List AnswerRow
  nextUserId : Nat
  nextQuestionId : Nat
  nextAnswerId : Nat
deriving DecidableEq, Repr

/-- A freshly created database file: empty tables, counters at 1. -/
def emptyDB : DB := ⟨[], [], [], 1, 1, 1⟩

/-! ## database.js `dbOperations` (first snapshot of src/backend/src/utils/database.js) -/

/-- `getUserByHandle`: `SELECT * FROM users WHERE handle = ?` (first matching row). -/
def getUserByHandle (db : DB) (handle : String) : Option UserRow :=
  db.users.find? (fun u => u.handle == handle)

/-- `createUser`: `INSERT INTO users (handle, secret_key, auth_type)` with `auth_type` set to `secret_key`,
returning the last insert rowid. -/
def createUser (db : DB) (handle : String) (secretHash : String) : DB × Nat :=
  ({ db with
      users := db.users ++ [⟨db.nextUserId, handle, some secretHash, .secretKey⟩],
      nextUserId := db.nextUserId + 1 },
   db.nextUserId)

/-- `createTwitterUser`: inserts a users row with `auth_type` set to `twitter` and no secret key. -/
def createTwitterUser (db : DB) (handle : String) : DB × Nat :=
  ({ db with
      users := db.users ++ [⟨db.nextUserId, handle, none, .twitter⟩],
      nextUserId := db.nextUserId + 1 },
   db.nextUserId)

/-- `createQuestion`: `INSERT INTO questions (user_id, text, ip_address) VALUES (?, ?, ?)`. -/
def createQuestion (db : DB) (userId : Nat) (text ip : String) : DB × Nat :=
  ({ db with
      questions := db.questions ++ [⟨db.nextQuestionId, userId, text, ip⟩],
      nextQuestionId := db.nextQuestionId + 1 },
   db.nextQuestionId)

/-- `getQuestionById`: `SELECT * FROM questions WHERE id = ?`. -/
def getQuestionById (db : DB) (id : Nat) : Option QuestionRow :=
  db.questions.find? (fun q => q.id == id)

/-- `deleteQuestion`: `DELETE FROM questions WHERE id = ?`. -/
def deleteQuestion (db : DB) (id : Nat) : DB :=
  { db with questions := db.questions.filter (fun q => q.id != id) }

/-- `createAnswer`: `INSERT INTO answers (question_id, user_id, question_text, answer_text)`. -/
def createAnswer (db : DB) (questionId userId : Nat) (questionText answerText : String) :
    DB × Nat :=
  ({ db with
      answers := db.answers ++ [⟨db.nextAnswerId, questionId, userId, questionText, answerText⟩],
      nextAnswerId := db.nextAnswerId + 1 },
   db.nextAnswerId)

/-- `getUnansweredQuestions`: `SELECT q.* FROM questions q LEFT JOIN answers a ON
q.id = a.question_id WHERE q.user_id = ? AND a.id IS NULL` — the questions of the user
that no answers row references. -/
def getUnansweredQuestions (db : DB) (userId : Nat) : List QuestionRow :=
  db.questions.filter
    (fun q => q.userId == userId && db.answers.all (fun a => a.questionId != q.id))

/-- `deleteAnswer`: `DELETE FROM answers WHERE id = ? AND user_id = ?`, returning
the number of affected rows (`changes`). -/
def deleteAnswer (db : DB) (id userId : Nat) : DB × Nat :=
  let remaining := db.answers.filter (fun a => !(a.id == id && a.userId == userId))
  ({ db with answers := remaining }, db.answers.length - remaining.length)

/-- `updateAnswer`: `UPDATE answers SET answer_text = ? WHERE id = ? AND user_id = ?`,
returning the number of affected rows. -/
def updateAnswer (db : DB) (answerText : String) (id userId : Nat) : DB × Nat :=
  ({ db with
      answers := db.answers.map
        (fun a => if a.id == id && a.userId == userId then { a with answerText } else a) },
   (db.answers.filter (fun a => a.id == id && a.userId == userId)).length)

/-- `countQuestionsByUserId` part of `getUserStats`:
`SELECT COUNT(*) FROM questions WHERE user_id = ?` — live rows only. -/
def countQuestionsByUserId (db : DB) (userId : Nat) : Nat :=
  (db.questions.filter (fun q => q.userId == userId)).length

/-- `SELECT COUNT(*) FROM answers WHERE user_id = ?`. -/
def countAnswersByUserId (db : DB) (userId : Nat) : Nat :=
  (db.answers.filter (fun a => a.userId == userId)).length

/-- `getUserStats`: the two subselect counts returned to the stats route. -/
def getUserStats (db : DB) (userId : Nat) : Nat × Nat :=
  (countQuestionsByUserId db userId, countAnswersByUserId db userId)

/-! ## Validation middleware (src/unnamed/part_016, the backend express-validator rules) -/

/-- JavaScript `String.prototype.trim` (ASCII whitespace): drop leading and
trailing whitespace characters. -/
def jsTrim (s : String) : String :=
  ⟨((s.data.dropWhile Char.isWhitespace).reverse.dropWhile Char.isWhitespace).reverse⟩

/-- ASCII `a`–`z`. -/
def isLowerAlpha (c : Char) : Bool := 97 ≤ c.toNat && c.toNat ≤ 122

/-- ASCII `0`–`9`. -/
def isDigitCh (c : Char) : Bool := 48 ≤ c.toNat && c.toNat ≤ 57

/-- ASCII `A`–`Z`. -/
def isUpperAlpha (c : Char) : Bool := 65 ≤ c.toNat && c.toNat ≤ 90

/-- Character class `[a-z0-9]`. -/
def isLowerAlnum (c : Char) : Bool := isLowerAlpha c || isDigitCh c

/-- Character class `[a-zA-Z0-9]`. -/
def isAlnumCh (c : Char) : Bool := isLowerAlpha c || isUpperAlpha c || isDigitCh c

/-- JavaScript `String.prototype.toLowerCase` on the ASCII range. -/
def charToLower (c : Char) : Char :=
  if 65 ≤ c.toNat ∧ c.toNat ≤ 90 then Char.ofNat (c.toNat + 32) else c

/-- `value.toLowerCase()` applied to a whole string. -/
def strToLower (s : String) : String := ⟨s.data.map charToLower⟩

/-- Regex `/^[a-z0-9]+$/` as a whole-string test. -/
def matchesLowerAlnum (s : String) : Bool := !s.data.isEmpty && s.data.all isLowerAlnum

/-- Regex `/^\d+$/` as a whole-string test. -/
def matchesAllDigits (s : String) : Bool := !s.data.isEmpty && s.data.all isDigitCh

/-- Regex `/^(.)\1+$/`: the whole string is one character repeated at least twice. -/
def isSingleCharRepeated (s : String) : Bool :=
  match s.data with
  | [] => false
  | [_] => false
  | c :: rest => rest.all (fun d => d == c)

/-- Regex `/[a-zA-Z0-9]/`: some alphanumeric character occurs. -/
def containsAlnum (s : String) : Bool := s.data.any isAlnumCh

/-- The fixed reserved-handle list of `handleRules`. -/
def reservedHandles : List String :=
  ["api", "admin", "inbox", "login", "signup", "about", "help", "support"]

/-- `handleRules`: `body(handle).trim()` then the four validators, each
contributing its message when it fails (express-validator collects all
failures; an empty list means the handle is valid). -/
def handleErrors (raw : String) : List String :=
  let h := jsTrim raw
  (if 3 ≤ h.length ∧ h.length ≤ 20 then []
   else ["Handle must be between 3 and 20 characters"]) ++
  (if matchesLowerAlnum h then []
   else ["Handle can only contain lowercase letters and numbers"]) ++
  (if matchesAllDigits h then ["Handle cannot be only numbers"] else []) ++
  (if reservedHandles.contains (strToLower h) then ["This handle is reserved"] else [])

/-- `questionRules`: `body(text).trim()` then length 5–280, the repeated-character
check and the some-alphanumeric check. -/
def questionErrors (raw : String) : List String :=
  let t := jsTrim raw
  (if 5 ≤ t.length ∧ t.length ≤ 280 then []
   else ["Question must be between 5 and 280 characters"]) ++
  (if isSingleCharRepeated t then ["Please ask a real question"] else []) ++
  (if containsAlnum t then [] else ["Question must contain some text"])

/-- `answerRules`: `body(answerText).trim()` then length 1–1000. -/
def answerErrors (raw : String) : List String :=
  let t := jsTrim raw
  if 1 ≤ t.length ∧ t.length ≤ 1000 then []
  else ["Answer must be between 1 and 1000 characters"]

/-- `idParamRules`: `param(id).isInt` with minimum 1. -/
def idParamOk (id : Nat) : Bool := 1 ≤ id

/-! ## HTTP statuses used by the routes -/

/-- The HTTP status codes appearing in the modelled handlers (409 is listed by the
spec but sent by no handler; it is included so theorems can talk about it). -/
inductive Hstatus where
  | ok200
  | created201
  | badRequest400
  | unauthorized401
  | forbidden403
  | notFound404
  | conflict409
  | tooMany429
  | serverError500
deriving DecidableEq, Repr

/-! ## Route handlers (first snapshots of the files under src/backend/src/routes) -/

/-- `POST /api/users/create` (users.js lines 60–110) behind `handleRules` and
`validate`. `secretHash` stands for the bcrypt hash of the freshly generated
uuid secret. A failed validation returns 400; an existing handle returns 400
with message `Handle already exists`; otherwise a `secret_key` user row is
inserted and 201 returned. -/
def createHandle (db : DB) (rawHandle : String) (secretHash : String) : Hstatus × DB :=
  if handleErrors rawHandle ≠ [] then (.badRequest400, db)
  else
    match getUserByHandle db (jsTrim rawHandle) with
    | some _ => (.badRequest400, db)
    | none => (.created201, (createUser db (jsTrim rawHandle) secretHash).1)

/-- `POST /api/users/auth` (users.js lines 113–155) behind `authRules` and
`validate`. `verify` stands for `bcrypt.compare` on (plaintext, stored hash);
it is a parameter so that theorems can quantify over every possible comparison
outcome. A Twitter-only user is rejected 401 before any comparison. -/
def authUser (db : DB) (verify : String → String → Bool)
    (rawHandle rawSecret : String) : Hstatus :=
  if jsTrim rawHandle = "" ∨ jsTrim rawSecret = "" then .badRequest400
  else
    match getUserByHandle db (jsTrim rawHandle) with
    | none => .unauthorized401
    | some u =>
      if u.authType = .twitter then .unauthorized401
      else
        match u.secretKey with
        | none => .serverError500
        | some hash => if verify (jsTrim rawSecret) hash then .ok200 else .unauthorized401

/-- `POST /api/questions/{handle}` (questions.js lines 18–47) behind
`handleParamRules`, `questionRules` and `validate`: resolve the handle (404 if
absent) and insert a pending question row recording the caller IP. -/
def submitQuestion (db : DB) (handleParam rawText ip : String) : Hstatus × DB :=
  if ¬ matchesLowerAlnum handleParam then (.badRequest400, db)
  else if questionErrors rawText ≠ [] then (.badRequest400, db)
  else
    match getUserByHandle db handleParam with
    | none => (.notFound404, db)
    | some u => (.created201, (createQuestion db u.id (jsTrim rawText) ip).1)

/-- `POST /api/questions/{id}/answer` (questions.js lines 73–112) behind
`authenticate`, `idParamRules`, `answerRules` and `validate`: 404 if the
question row is gone, 403 if the caller is not its owner, otherwise insert the
answers row (copying the question text) and delete the questions row inside
the wrapping transaction. -/
def answerQuestion (db : DB) (qid : Nat) (rawAnswer : String) (callerId : Nat) :
    Hstatus × DB :=
  if ¬ idParamOk qid then (.badRequest400, db)
  else if answerErrors rawAnswer ≠ [] then (.badRequest400, db)
  else
    match getQuestionById db qid with
    | none => (.notFound404, db)
    | some q =>
      if q.userId ≠ callerId then (.forbidden403, db)
      else
        (.created201, deleteQuestion (createAnswer db qid callerId q.text (jsTrim rawAnswer)).1 qid)

/-- `DELETE /api/questions/{id}` (questions.js lines 115–138): the owner-only
discard of a pending question. -/
def discardQuestion (db : DB) (qid : Nat) (callerId : Nat) : Hstatus × DB :=
  if ¬ idParamOk qid then (.badRequest400, db)
  else
    match getQuestionById db qid with
    | none => (.notFound404, db)
    | some q =>
      if q.userId ≠ callerId then (.forbidden403, db)
      else (.ok200, deleteQuestion db qid)

/-- `DELETE /api/answers/{id}` (answers.js lines 52–68): run the conditional
delete keyed on both id and caller id; zero affected rows is reported as
404 `Answer not found or unauthorized`. -/
def deleteAnswerRoute (db : DB) (aid : Nat) (callerId : Nat) : Hstatus × DB :=
  if ¬ idParamOk aid then (.badRequest400, db)
  else
    let r := deleteAnswer db aid callerId
    (if r.2 = 0 then .notFound404 else .ok200, r.1)

/-- `PUT /api/answers/{id}` (src/unnamed/part_008 lines 111–137): inline text
validation (required, and `answerText.length > 1000` checked before trimming),
then the conditional update keyed on both id and caller id; zero affected rows
is reported as 404 `Answer not found or unauthorized`. -/
def updateAnswerRoute (db : DB) (aid : Nat) (rawText : String) (callerId : Nat) :
    Hstatus × DB :=
  if ¬ idParamOk aid then (.badRequest400, db)
  else if jsTrim rawText = "" then (.badRequest400, db)
  else if 1000 < rawText.length then (.badRequest400, db)
  else
    let r := updateAnswer db (jsTrim rawText) aid callerId
    (if r.2 = 0 then .notFound404 else .ok200, r.1)

/-- The payload of `GET /api/stats/{handle}` (stats.js lines 21–26).
`unansweredQuestions` is the JavaScript subtraction
`stats.total_questions - stats.total_answers`, which can be negative. -/
structure StatsPayload where
  totalQuestions : Nat
  totalAnswers : Nat
  unansweredQuestions : Int
deriving DecidableEq, Repr

/-- `GET /api/stats/{handle}` (stats.js lines 9–31): owner-only; returns the
live-row counts of `getUserStats` and their difference. `caller` is the
`(userId, handle)` pair bound by the bearer token. -/
def getStats (db : DB) (handleParam : String) (caller : UserRow) :
    Hstatus × Option StatsPayload :=
  if ¬ matchesLowerAlnum handleParam then (.badRequest400, none)
  else if caller.handle ≠ handleParam then (.forbidden403, none)
  else
    let s := getUserStats db caller.id
    (.ok200, some ⟨s.1, s.2, (s.1 : Int) - (s.2 : Int)⟩)

/-! ## The operation alphabet and reachable states -/

/-- One mutating API call of the question/answer lifecycle. For `register`,
`hash` stands for the bcrypt hash generated inside the handler. -/
inductive Op where
  | register (handle hash : String)
  | submit (handle text ip : String)
  | answer (qid : Nat) (text : String) (callerId : Nat)
  | discard (qid : Nat) (callerId : Nat)
  | delAnswer (aid : Nat) (callerId : Nat)
  | editAnswer (aid : Nat) (text : String) (callerId : Nat)
deriving DecidableEq, Repr

/-- Apply one API call to the store, keeping the post-state. -/
def step (db : DB) : Op → DB
  | .register h s => (createHandle db h s).2
  | .submit h t ip => (submitQuestion db h t ip).2
  | .answer q t c => (answerQuestion db q t c).2
  | .discard q c => (discardQuestion db q c).2
  | .delAnswer a c => (deleteAnswerRoute db a c).2
  | .editAnswer a t c => (updateAnswerRoute db a t c).2

/-- The store reached from a fresh database by a sequence of API calls. -/
def runOps (ops : List Op) : DB := ops.foldl step emptyDB

/-- The structural invariant of reachable stores: question ids and the
question ids recorded in answers stay below the questions counter, no id has
both a live questions row and an answers row, and no two answers reference the
same question. -/
def dbInv (db : DB) : Prop :=
  (∀ q ∈ db.questions, q.id < db.nextQuestionId) ∧
  (∀ a ∈ db.answers, a.questionId < db.nextQuestionId) ∧
  (∀ a ∈ db.answers, ∀ q ∈ db.questions, a.questionId ≠ q.id) ∧
  (db.answers.map (fun a => a.questionId)).Nodup

instance (db : DB) : Decidable (dbInv db) := by
  unfold dbInv
  infer_instance

/-! ## Rate limiting (src/backend/src/index.js, first snapshot)

`express-rate-limit` with the default memory store counts hits per key within
a fixed window of `windowMs` milliseconds; when a request arrives after the
window has elapsed the counters restart. A request whose incremented count
exceeds `maxHits` is rejected with 429. -/

/-- The state of one `rateLimit({...})` middleware instance. -/
structure Limiter where
  windowMs : Nat
  maxHits : Nat
  windowStart : Nat
  hits : List (String × Nat)
deriving DecidableEq, Repr

/-- Current count for a key. -/
def limiterCount (hits : List (String × Nat)) (key : String) : Nat :=
  match hits.find? (fun p => p.1 == key) with
  | some p => p.2
  | none => 0

/-- Record one more hit for a key. -/
def limiterIncr (hits : List (String × Nat)) (key : String) : List (String × Nat) :=
  if (hits.find? (fun p => p.1 == key)).isSome then
    hits.map (fun p => if p.1 == key then (p.1, p.2 + 1) else p)
  else hits ++ [(key, 1)]

/-- One request through a limiter at time `now` (milliseconds): restart the
window if it has elapsed, count the hit, allow iff the count is within
`maxHits`. -/
def limiterHit (lim : Limiter) (now : Nat) (key : String) : Bool × Limiter :=
  let lim' := if lim.windowStart + lim.windowMs ≤ now
              then { lim with hits := [], windowStart := now }
              else lim
  (decide (limiterCount lim'.hits key + 1 ≤ lim'.maxHits),
   { lim' with hits := limiterIncr lim'.hits key })

/-- `globalLimiter` (index.js lines 99–109): 100 requests per IP per 15 minutes. -/
def globalLimiterInit : Limiter := ⟨15 * 60 * 1000, 100, 0, []⟩

/-- `questionLimiter` (index.js lines 113–124): 3 requests per `(ip, handle)`
key per 1 minute, with message `Too many questions. Please wait before asking
again.` -/
def questionLimiterInit : Limiter := ⟨60 * 1000, 3, 0, []⟩

/-- The express app state: the store plus both limiter instances. -/
structure AppState where
  db : DB
  globalLimiter : Limiter
  questionLimiter : Limiter
deriving DecidableEq, Repr

/-- The app state right after startup with an existing store `db`. -/
def appInit (db : DB) : AppState := ⟨db, globalLimiterInit, questionLimiterInit⟩

/-- A `POST /api/questions/{handle}` request through the full middleware
pipeline of index.js, in mount order: `globalLimiter` is mounted on `/api/`
(line 110) before the routers, the questions router on `/api/questions`
(line 128), and `questionLimiter` on `/api/questions/:handle` only at line
134 — after the router. The `POST /:handle` handler of the router always sends a
response, so the request never reaches `questionLimiter`, whose state is
neither consulted nor updated. -/
def appPostQuestion (st : AppState) (now : Nat) (ip handle text : String) :
    Hstatus × AppState :=
  let g := limiterHit st.globalLimiter now ip
  if g.1 then
    let r := submitQuestion st.db handle text ip
    (r.1, { st with db := r.2, globalLimiter := g.2 })
  else
    (.tooMany429, { st with globalLimiter := g.2 })

/-! ## Frontend question form (first snapshot of
src/frontend/src/utils/validation.js; second snapshot for the profanity
filter, lines 91–135 of the raw file; src/frontend/src/pages/ProfilePage.jsx
for the submit flow) -/

/-- Frontend `validateQuestion`: the client-side counterpart of the backend
question rules, with its own messages. -/
def validateQuestionFront (text : String) : List String :=
  if jsTrim text = "" then ["Type your question first"]
  else
    (if text.length < 5 then ["Add a bit more detail (5+ characters)"] else []) ++
    (if 280 < text.length then ["Keep it under 280 characters"] else []) ++
    (if isSingleCharRepeated (jsTrim text) then ["Ask a real question"] else []) ++
    (if containsAlnum text then [] else ["Add some actual words to your question"])

/-- One element of an obfuscation-tolerant profanity regex: a character class
together with whether at least one occurrence is required (`+`) or the element
is optional (`*`). -/
def PElem : Type := List Char × Bool

/-- `/\b.../i` patterns from the frontend profanity filter, written as
sequences of (character class, required) elements; the `/i` flag is handled by
lowercasing the text before matching. -/
def profanityPatterns : List (List PElem) :=
  [ [(['f'], true), (['u', '*'], true), (['c'], true), (['k'], true)],
    [(['s'], true), (['h'], true), (['i', '*'], true), (['t'], true)],
    [(['a'], true), (['s'], true), (['s'], true), (['h'], true), (['o'], true),
      (['l'], true), (['e'], true)],
    [(['b'], true), (['i', '*'], true), (['t'], true), (['c'], true), (['h'], true)],
    [(['d'], true), (['a'], true), (['m'], true), (['n'], true)],
    [(['h'], true), (['e'], true), (['l'], true), (['l'], true)],
    [(['c'], true), (['r'], true), (['a'], true), (['p'], true)],
    [(['p'], true), (['i', '*'], true), (['s'], true), (['s'], true)],
    [(['n'], true), (['i', '*'], true), (['g'], true), (['g'], true), (['a', 'e'], true),
      (['r'], false)],
    [(['f'], true), (['a'], true), (['g'], true), (['g'], false), (['o', 'i'], true),
      (['t'], false)],
    [(['r'], true), (['e'], true), (['t'], true), (['a'], true), (['r'], true),
      (['d'], true)],
    [(['d'], true), (['i', '*'], true), (['c'], true), (['k'], true)],
    [(['c'], true), (['o'], true), (['c'], true), (['k'], true)],
    [(['p'], true), (['u'], true), (['s'], true), (['s'], true), (['y'], true)],
    [(['c'], true), (['u'], true), (['n'], true), (['t'], true)],
    [(['w'], true), (['t'], true), (['f'], true)],
    [(['s'], true), (['t'], true), (['f'], true), (['u'], true)] ]

/-- Backtracking match of a pattern element sequence against a prefix of `s`
(trailing characters may remain, as with `RegExp.test`). The fuel is a step
bound; each call either shortens the element list or consumes a character, so
`s.length + elems.length + 1` steps always suffice. -/
def matchSeqF : Nat → List PElem → List Char → Bool
  | 0, _, _ => false
  | _ + 1, [], _ => true
  | fuel + 1, (cls, req) :: rest, s =>
    (!req && matchSeqF fuel rest s) ||
    (match s with
     | [] => false
     | c :: s' => cls.contains c && matchSeqF fuel ((cls, false) :: rest) s')

/-- Match a pattern element sequence starting at the head of `s`. -/
def matchSeq (elems : List PElem) (s : List Char) : Bool :=
  matchSeqF (s.length + elems.length + 1) elems s

/-- Regex word character `[A-Za-z0-9_]`. -/
def isWordChar (c : Char) : Bool := isAlnumCh c || c == '_'

/-- `\b` before a word character holds at the string start or after a
non-word character. -/
def boundaryOk : Option Char → Bool
  | none => true
  | some c => !isWordChar c

/-- Try the pattern at every position of `s` that sits at a word boundary,
as `RegExp.test` does (`prev` is the character before the current position). -/
def testFrom (p : List PElem) : Option Char → List Char → Bool
  | prev, [] => boundaryOk prev && matchSeq p []
  | prev, c :: s' => (boundaryOk prev && matchSeq p (c :: s')) || testFrom p (some c) s'

/-- `pattern.test(text)` for one profanity pattern. -/
def testPattern (p : List PElem) (s : List Char) : Bool := testFrom p none s

/-- The leet-speak digit substitutions of the bypass check:
`{0:o, 1:i, 3:e, 4:a, 5:s, 7:t}`. -/
def digitToLetter (c : Char) : Char :=
  if c == '0' then 'o'
  else if c == '1' then 'i'
  else if c == '3' then 'e'
  else if c == '4' then 'a'
  else if c == '5' then 's'
  else if c == '7' then 't'
  else c

/-- Frontend `containsProfanity` (validation.js second snapshot lines
119–135): falsy text is clean; otherwise the patterns are tested against the
text and against a normalized copy with `[@#$%&*]` stripped and leet digits
replaced by letters. -/
def containsProfanity (text : String) : Bool :=
  if text.data.isEmpty then false
  else
    let lower := text.data.map charToLower
    let normalized :=
      ((text.data.filter
          (fun c => !(['@', '#', '$', '%', '&', '*'].contains c))).map digitToLetter).map
        charToLower
    profanityPatterns.any (fun p => testPattern p lower) ||
      profanityPatterns.any (fun p => testPattern p normalized)

/-- The question form submit flow of ProfilePage.jsx: run the client-side
validation, then the profanity check; the mutation (the actual POST) is issued
only when both pass. Returns the text sent, or `none` when blocked. -/
def frontendSendQuestion (text : String) : Option String :=
  if validateQuestionFront text ≠ [] then none
  else if containsProfanity text then none
  else some text

/-! ## Helper lemmas -/

lemma charToLower_of_lowerAlnum (c : Char) (h : isLowerAlnum c = true) :
    charToLower c = c := by
  unfold isLowerAlnum isLowerAlpha isDigitCh at h
  unfold charToLower
  rw [if_neg]
  simp only [Bool.or_eq_true, Bool.and_eq_true, decide_eq_true_eq] at h
  omega

lemma strToLower_of_matchesLowerAlnum (s : String) (h : matchesLowerAlnum s = true) :
    strToLower s = s := by
  unfold matchesLowerAlnum at h
  simp only [Bool.and_eq_true, List.all_eq_true] at h
  unfold strToLower
  have h2 : s.data.map charToLower = s.data := by
    rw [List.map_congr_left (fun c hc => charToLower_of_lowerAlnum c (h.2 c hc))]
    simp
  rw [h2]

lemma matchesLowerAlnum_of_handleErrors_nil (raw : String) (h : handleErrors raw = []) :
    matchesLowerAlnum (jsTrim raw) = true := by
  by_cases hm : matchesLowerAlnum (jsTrim raw)
  · exact hm
  · simp [handleErrors, hm] at h

/-- If no two list elements share a `key` value, at most one element has any
given key. -/
lemma length_filter_le_one_of_nodup_map {α : Type} (key : α → Nat) (l : List α)
    (h : (l.map key).Nodup) (x : Nat) :
    (l.filter (fun a => key a == x)).length ≤ 1 := by
  induction l with
  | nil => simp
  | cons a l ih =>
    simp only [List.map_cons, List.nodup_cons] at h
    by_cases hx : key a = x
    · have hnil : l.filter (fun a => key a == x) = [] := by
        apply List.filter_eq_nil_iff.2
        intro b hb
        simp only [beq_iff_eq]
        intro hbx
        exact h.1 (by rw [hx, ← hbx]; exact List.mem_map_of_mem key hb)
      simp [List.filter_cons, hx, hnil]
    · simpa [List.filter_cons, hx] using ih h.2

/-! ### Preservation of the structural invariant by every API call -/

lemma dbInv_createHandle (db : DB) (h s : String) (hinv : dbInv db) :
    dbInv (createHandle db h s).2 := by
  unfold createHandle
  split
  · exact hinv
  · split
    · exact hinv
    · simpa [dbInv, createUser] using hinv

lemma dbInv_submitQuestion (db : DB) (h t ip : String) (hinv : dbInv db) :
    dbInv (submitQuestion db h t ip).2 := by
  unfold submitQuestion
  split
  · exact hinv
  split
  · exact hinv
  split
  · exact hinv
  · obtain ⟨h1, h2, h3, h4⟩ := hinv
    refine ⟨?_, ?_, ?_, ?_⟩ <;> simp only [createQuestion]
    · intro q hq
      rcases List.mem_append.1 hq with hq | hq
      · exact Nat.lt_succ_of_lt (h1 q hq)
      · simp only [List.mem_singleton] at hq
        subst hq
        exact Nat.lt_succ_self _
    · intro a ha
      exact Nat.lt_succ_of_lt (h2 a ha)
    · intro a ha q hq
      rcases List.mem_append.1 hq with hq | hq
      · exact h3 a ha q hq
      · simp only [List.mem_singleton] at hq
        subst hq
        exact Nat.ne_of_lt (h2 a ha)
    · exact h4

lemma dbInv_answerQuestion (db : DB) (qid : Nat) (t : String) (c : Nat) (hinv : dbInv db) :
    dbInv (answerQuestion db qid t c).2 := by
  unfold answerQuestion
  split
  · exact hinv
  split
  · exact hinv
  split
  · exact hinv
  next q hq =>
    split
    · exact hinv
    · obtain ⟨h1, h2, h3, h4⟩ := hinv
      have hqmem : q ∈ db.questions := List.mem_of_find?_eq_some hq
      have hqid : q.id = qid := by simpa using List.find?_some hq
      refine ⟨?_, ?_, ?_, ?_⟩ <;> simp only [deleteQuestion, createAnswer]
      · intro q' hq'
        exact h1 q' (List.mem_of_mem_filter hq')
      · intro a ha
        rcases List.mem_append.1 ha with ha | ha
        · exact h2 a ha
        · simp only [List.mem_singleton] at ha
          subst ha
          exact hqid ▸ h1 q hqmem
      · intro a ha q' hq'
        have hq'mem := List.mem_filter.1 hq'
        rcases List.mem_append.1 ha with ha | ha
        · exact h3 a ha q' hq'mem.1
        · simp only [List.mem_singleton] at ha
          subst ha
          have := hq'mem.2
          simp only [bne_iff_ne, ne_eq] at this
          exact fun hcontra => this (hcontra ▸ rfl)
      · rw [List.map_append]
        rw [List.nodup_append]
        refine ⟨h4, List.nodup_singleton _, ?_⟩
        intro x hx hx'
        simp only [List.map_cons, List.map_nil, List.mem_singleton] at hx'
        subst hx'
        rcases List.mem_map.1 hx with ⟨a, ha, hax⟩
        exact h3 a ha q hqmem (hax.trans hqid.symm)

lemma dbInv_discardQuestion (db : DB) (qid c : Nat) (hinv : dbInv db) :
    dbInv (discardQuestion db qid c).2 := by
  unfold discardQuestion
  split
  · exact hinv
  split
  · exact hinv
  split
  · exact hinv
  · obtain ⟨h1, h2, h3, h4⟩ := hinv
    refine ⟨?_, ?_, ?_, ?_⟩ <;> simp only [deleteQuestion]
    · intro q' hq'
      exact h1 q' (List.mem_of_mem_filter hq')
    · exact h2
    · intro a ha q' hq'
      exact h3 a ha q' (List.mem_of_mem_filter hq')
    · exact h4

lemma dbInv_deleteAnswerRoute (db : DB) (aid c : Nat) (hinv : dbInv db) :
    dbInv (deleteAnswerRoute db aid c).2 := by
  unfold deleteAnswerRoute
  split
  · exact hinv
  · obtain ⟨h1, h2, h3, h4⟩ := hinv
    refine ⟨?_, ?_, ?_, ?_⟩ <;> simp only [deleteAnswer]
    · exact h1
    · intro a ha
      exact h2 a (List.mem_of_mem_filter ha)
    · intro a ha q hq
      exact h3 a (List.mem_of_mem_filter ha) q hq
    · exact ((List.filter_sublist _).map _).nodup h4

lemma dbInv_updateAnswerRoute (db : DB) (aid : Nat) (t : String) (c : Nat)
    (hinv : dbInv db) : dbInv (updateAnswerRoute db aid t c).2 := by
  unfold updateAnswerRoute
  split
  · exact hinv
  split
  · exact hinv
  split
  · exact hinv
  · obtain ⟨h1, h2, h3, h4⟩ := hinv
    refine ⟨?_, ?_, ?_, ?_⟩ <;> simp only [updateAnswer]
    · exact h1
    · intro a ha
      rcases List.mem_map.1 ha with ⟨b, hb, hba⟩
      have : a.questionId = b.questionId := by
        subst hba
        split <;> rfl
      exact this ▸ h2 b hb
    · intro a ha q hq
      rcases List.mem_map.1 ha with ⟨b, hb, hba⟩
      have : a.questionId = b.questionId := by
        subst hba
        split <;> rfl
      exact this ▸ h3 b hb q hq
    · rw [List.map_map]
      have : ∀ a ∈ db.answers,
          ((fun a : AnswerRow => a.questionId) ∘
            (fun a : AnswerRow =>
              if a.id == aid && a.userId == c then { a with answerText := jsTrim t } else a)) a =
          a.questionId := by
        intro a _
        simp only [Function.comp]
        split <;> rfl
      rw [List.map_congr_left this]
      exact h4

lemma dbInv_step (db : DB) (op : Op) (hinv : dbInv db) : dbInv (step db op) := by
  cases op with
  | register h s => exact dbInv_createHandle db h s hinv
  | submit h t ip => exact dbInv_submitQuestion db h t ip hinv
  | answer q t c => exact dbInv_answerQuestion db q t c hinv
  | discard q c => exact dbInv_discardQuestion db q c hinv
  | delAnswer a c => exact dbInv_deleteAnswerRoute db a c hinv
  | editAnswer a t c => exact dbInv_updateAnswerRoute db a t c hinv

lemma dbInv_foldl (ops : List Op) : ∀ db : DB, dbInv db → dbInv (ops.foldl step db) := by
  induction ops with
  | nil => exact fun db h => h
  | cons op ops ih => exact fun db h => ih (step db op) (dbInv_step db op h)

lemma dbInv_emptyDB : dbInv emptyDB := by
  refine ⟨?_, ?_, ?_, ?_⟩ <;> simp [emptyDB]

/-- Every store reachable from a fresh database satisfies the structural
invariant. -/
lemma dbInv_runOps (ops : List Op) : dbInv (runOps ops) :=
  dbInv_foldl ops emptyDB dbInv_emptyDB

/-- When no answers row matches both the id and the user id, the conditional
`DELETE` affects zero rows and returns the store unchanged. -/
lemma deleteAnswer_noop (db : DB) (aid uid : Nat)
    (h : ∀ a ∈ db.answers, ¬(a.id = aid ∧ a.userId = uid)) :
    deleteAnswer db aid uid = (db, 0) := by
  unfold deleteAnswer
  have hfil : db.answers.filter (fun a => !(a.id == aid && a.userId == uid)) = db.answers := by
    apply List.filter_eq_self.2
    intro a ha
    by_cases h1 : a.id = aid
    · have h2 : a.userId ≠ uid := fun h2 => (h a ha) ⟨h1, h2⟩
      simp [h1, h2]
    · simp [h1]
  rw [hfil]
  show (({ db with answers := db.answers } : DB), db.answers.length - db.answers.length) = (db, 0)
  rw [Nat.sub_self]

/-- When no answers row matches both the id and the user id, the conditional
`UPDATE` affects zero rows and returns the store unchanged. -/
lemma updateAnswer_noop (db : DB) (t : String) (aid uid : Nat)
    (h : ∀ a ∈ db.answers, ¬(a.id = aid ∧ a.userId = uid)) :
    updateAnswer db t aid uid = (db, 0) := by
  unfold updateAnswer
  have hcond : ∀ a ∈ db.answers, (a.id == aid && a.userId == uid) = false := by
    intro a ha
    by_cases h1 : a.id = aid
    · have h2 : a.userId ≠ uid := fun h2 => (h a ha) ⟨h1, h2⟩
      simp [h1, h2]
    · simp [h1]
  have hmap : db.answers.map
      (fun a => if a.id == aid && a.userId == uid then { a with answerText := t } else a) =
      db.answers := by
    have hc : db.answers.map
        (fun a => if a.id == aid && a.userId == uid then { a with answerText := t } else a) =
        db.answers.map (fun a => a) :=
      List.map_congr_left (fun a ha => by rw [hcond a ha]; rfl)
    rw [hc]
    simp
  have hfil : db.answers.filter (fun a => a.id == aid && a.userId == uid) = [] :=
    List.filter_eq_nil_iff.2 (fun a ha => by simp [hcond a ha])
  rw [hmap, hfil]
  rfl

/-! ## Example stores used by the concrete theorems -/

/-- The token payload of the user created by registering `abc123`. -/
def exUser1 : UserRow := ⟨1, "abc123", some "h1", .secretKey⟩

/-- Register `abc123`, then submit one anonymous question to it. -/
def exOpsQA : List Op :=
  [.register "abc123" "h1", .submit "abc123" "What is your favorite indicator?" "ip1"]

/-- The store with one user and one pending question. -/
def exDbPending : DB := runOps exOpsQA

/-- The store after the owner answers the pending question. -/
def exDbAnswered : DB := runOps (exOpsQA ++ [.answer 1 "RSI divergence." 1])

/-- The store with just the user `abc123`. -/
def exDbOne : DB := (createHandle emptyDB "abc123" "h1").2

/-- Two users where `bob22` (id 2) has answered a question (answer id 1);
`alice1` (id 1) is an authenticated caller who does not own that answer. -/
def exOpsTwo : List Op :=
  [.register "alice1" "h1", .register "bob22" "h2",
   .submit "bob22" "What coin do you like" "ip2", .answer 1 "Bitcoin mostly." 2]

/-- The two-user store. -/
def exDbTwo : DB := runOps exOpsTwo

/-- A store whose only user came through the Twitter identity path. -/
def exDbTwitter : DB := (createTwitterUser emptyDB "tradercat").1

/-! ## Claims -/

set_option maxRecDepth 40000 in
/-- Claim C7: handle validation rejects a 2-character handle, a 21-character
handle, an all-digit handle and a reserved-word handle, each with its specific
listed violation, while question-text validation accepts a 280-character
question and rejects a 281-character one. -/
theorem validation_boundary_cases :
    handleErrors "ab" = ["Handle must be between 3 and 20 characters"] ∧
    handleErrors "aaaaaaaaaaaaaaaaaaaaa" = ["Handle must be between 3 and 20 characters"] ∧
    handleErrors "12345" = ["Handle cannot be only numbers"] ∧
    handleErrors "admin" = ["This handle is reserved"] ∧
    questionErrors (String.join (List.replicate 56 "quest")) = [] ∧
    questionErrors (String.join (List.replicate 56 "quest") ++ "s") =
      ["Question must be between 5 and 280 characters"] := by
  decide

/-- Claim C1: the claim says `totalQuestions` never decreases, but
`getUserStats` counts live questions rows, so answering the single pending
question of `abc123` makes `totalQuestions` fall from 1 to 0 (and drives the
derived `unansweredQuestions` to -1). -/
theorem totalQuestions_decreases_after_answer :
    (getStats exDbPending "abc123" exUser1).2 = some ⟨1, 0, 1⟩ ∧
    (answerQuestion exDbPending 1 "RSI divergence." 1).1 = Hstatus.created201 ∧
    exDbAnswered = (answerQuestion exDbPending 1 "RSI divergence." 1).2 ∧
    (getStats exDbAnswered "abc123" exUser1).2 = some ⟨0, 1, -1⟩ := by
  decide

/-- Claim C3 counterexample: a second registration of an existing handle is
rejected with HTTP 400 (message `Handle already exists`), not with the 409
Conflict status the claim requires. -/
theorem register_duplicate_counterexample :
    (createHandle exDbOne "abc123" "h2").1 = Hstatus.badRequest400 ∧
    (createHandle exDbOne "abc123" "h2").1 ≠ Hstatus.conflict409 ∧
    (createHandle exDbOne "abc123" "h2").2 = exDbOne := by
  decide

/-- Claim C3 (amended): for every handle some case variant of which is already
registered, a second Register request fails with HTTP 400 — either as
`Handle already exists` (exact lowercase duplicate) or as a handle-validation
failure (any variant with an uppercase letter, since handles must match
lowercase `[a-z0-9]+`) — and no users row is created. -/
theorem register_duplicate_rejected (db : DB) (raw hash : String)
    (h : ∃ u ∈ db.users, u.handle = strToLower (jsTrim raw)) :
    (createHandle db raw hash).1 = Hstatus.badRequest400 ∧
    (createHandle db raw hash).2 = db := by
  unfold createHandle
  by_cases hv : handleErrors raw = []
  · rw [if_neg (by simp [hv])]
    have hm := matchesLowerAlnum_of_handleErrors_nil raw hv
    rw [strToLower_of_matchesLowerAlnum _ hm] at h
    obtain ⟨u, hu, huh⟩ := h
    have hne : getUserByHandle db (jsTrim raw) ≠ none := by
      unfold getUserByHandle
      rw [ne_eq, List.find?_eq_none]
      push_neg
      exact ⟨u, hu, by simp [huh]⟩
    cases hfind : getUserByHandle db (jsTrim raw) with
    | none => exact absurd hfind hne
    | some _ => exact ⟨rfl, rfl⟩
  · rw [if_pos (by simp [hv])]
    exact ⟨rfl, rfl⟩

/-- Witness for C3: registering `ABC123` while `abc123` exists is rejected
with 400 and leaves the store unchanged. -/
theorem register_duplicate_rejected_witness :
    (∃ u ∈ exDbOne.users, u.handle = strToLower (jsTrim "ABC123")) ∧
    (createHandle exDbOne "ABC123" "h2").1 = Hstatus.badRequest400 ∧
    (createHandle exDbOne "ABC123" "h2").2 = exDbOne :=
  ⟨by decide,
   (register_duplicate_rejected exDbOne "ABC123" "h2" (by decide)).1,
   (register_duplicate_rejected exDbOne "ABC123" "h2" (by decide)).2⟩

/-- Claim C4 counterexample: answer 1 exists and belongs to user 2, yet
caller 1 (an authenticated non-owner) gets HTTP 404
(`Answer not found or unauthorized`) from both DELETE and PUT — not the 403
Forbidden the claim requires. -/
theorem wrong_owner_edit_delete_counterexample :
    exDbTwo.answers = [⟨1, 1, 2, "What coin do you like", "Bitcoin mostly."⟩] ∧
    (deleteAnswerRoute exDbTwo 1 1).1 = Hstatus.notFound404 ∧
    (deleteAnswerRoute exDbTwo 1 1).1 ≠ Hstatus.forbidden403 ∧
    (updateAnswerRoute exDbTwo 1 "Ethereum actually." 1).1 = Hstatus.notFound404 ∧
    (updateAnswerRoute exDbTwo 1 "Ethereum actually." 1).1 ≠ Hstatus.forbidden403 := by
  decide

/-- Claim C4 (amended): EditAnswer and DeleteAnswer by a caller who owns no
answers row with the requested id (in particular any non-owner of an existing
answer) fail with HTTP 404 `Answer not found or unauthorized` — the same error
class as a missing id, never a silent no-op — and leave the store unchanged;
the wrong-owner case is never reported as 403 Forbidden. -/
theorem wrong_owner_edit_delete_404 (db : DB) (aid callerId : Nat) (newText : String)
    (hnone : ∀ a ∈ db.answers, ¬(a.id = aid ∧ a.userId = callerId))
    (hid : idParamOk aid = true)
    (htext : jsTrim newText ≠ "" ∧ newText.length ≤ 1000) :
    (deleteAnswerRoute db aid callerId).1 = Hstatus.notFound404 ∧
    (deleteAnswerRoute db aid callerId).2 = db ∧
    (updateAnswerRoute db aid newText callerId).1 = Hstatus.notFound404 ∧
    (updateAnswerRoute db aid newText callerId).2 = db := by
  have hd := deleteAnswer_noop db aid callerId hnone
  have hu := updateAnswer_noop db (jsTrim newText) aid callerId hnone
  have hlen : ¬ (1000 < newText.length) := by omega
  unfold deleteAnswerRoute updateAnswerRoute
  rw [if_neg (by simp [hid]), if_neg (by simp [hid]), if_neg htext.1, if_neg hlen]
  simp [hd, hu]

/-- Witness for C4: caller 1 asking to delete or edit answer 1 (owned by
user 2) gets 404 on both routes and the store is untouched. -/
theorem wrong_owner_edit_delete_404_witness :
    (deleteAnswerRoute exDbTwo 1 1).1 = Hstatus.notFound404 ∧
    (updateAnswerRoute exDbTwo 1 "Ethereum actually." 1).2 = exDbTwo :=
  ⟨(wrong_owner_edit_delete_404 exDbTwo 1 1 "Ethereum actually." (by decide) (by decide)
      ⟨by decide, by decide⟩).1,
   (wrong_owner_edit_delete_404 exDbTwo 1 1 "Ethereum actually." (by decide) (by decide)
      ⟨by decide, by decide⟩).2.2.2⟩

/-- Claim C9: when no answers row matches both the requested id and the
caller id — the id is absent or the row belongs to someone else — the
conditional UPDATE and DELETE leave the answers table exactly as it was; and
unconditionally, every answers row owned by a different user survives both
routes untouched, so no caller can modify or delete the answer of another
user through these endpoints. -/
theorem answer_mutation_frame (db : DB) (aid callerId : Nat) (newText : String) :
    (∀ a ∈ db.answers, a.userId ≠ callerId →
      a ∈ (deleteAnswerRoute db aid callerId).2.answers ∧
      a ∈ (updateAnswerRoute db aid newText callerId).2.answers) ∧
    ((∀ a ∈ db.answers, ¬(a.id = aid ∧ a.userId = callerId)) →
      (deleteAnswerRoute db aid callerId).2.answers = db.answers ∧
      (updateAnswerRoute db aid newText callerId).2.answers = db.answers) := by
  constructor
  · intro a ha hne
    constructor
    · simp only [deleteAnswerRoute]
      split
      · exact ha
      · simp only [deleteAnswer]
        exact List.mem_filter.2 ⟨ha, by simp [hne]⟩
    · simp only [updateAnswerRoute]
      split
      · exact ha
      split
      · exact ha
      split
      · exact ha
      · simp only [updateAnswer]
        refine List.mem_map.2 ⟨a, ha, ?_⟩
        rw [if_neg]
        simp [hne]
  · intro hnone
    have hd := deleteAnswer_noop db aid callerId hnone
    have hu := updateAnswer_noop db (jsTrim newText) aid callerId hnone
    constructor
    · simp only [deleteAnswerRoute]
      split
      · rfl
      · rw [hd]
    · simp only [updateAnswerRoute]
      split
      · rfl
      split
      · rfl
      split
      · rfl
      · rw [hu]

/-- Witness for C9: the answer of user 2 survives a delete attempt by
caller 1, and an edit attempt by caller 1 leaves the answers table equal to
what it was. -/
theorem answer_mutation_frame_witness :
    (⟨1, 1, 2, "What coin do you like", "Bitcoin mostly."⟩ : AnswerRow) ∈
      (deleteAnswerRoute exDbTwo 1 1).2.answers ∧
    (updateAnswerRoute exDbTwo 1 "Ethereum actually." 1).2.answers = exDbTwo.answers :=
  ⟨((answer_mutation_frame exDbTwo 1 1 "Ethereum actually.").1 _ (by decide) (by decide)).1,
   ((answer_mutation_frame exDbTwo 1 1 "Ethereum actually.").2 (by decide)).2⟩

/-- Claim C5: authenticating against a handle whose users row was created by
the Twitter identity path fails 401 Unauthorized for every well-formed secret
value and for every possible hash-comparison outcome — the quantification
over `verify` shows the decision is taken by the explicit auth-kind check
before any hash comparison is consulted. -/
theorem auth_twitter_always_unauthorized (db : DB) (verify : String → String → Bool)
    (rawHandle rawSecret : String) (u : UserRow)
    (hh : jsTrim rawHandle ≠ "") (hs : jsTrim rawSecret ≠ "")
    (hu : getUserByHandle db (jsTrim rawHandle) = some u)
    (ht : u.authType = AuthType.twitter) :
    authUser db verify rawHandle rawSecret = Hstatus.unauthorized401 := by
  unfold authUser
  rw [if_neg (by tauto), hu]
  simp [ht]

/-- Witness for C5: the Twitter-created handle `tradercat` is rejected 401
even under a comparison function that accepts everything. -/
theorem auth_twitter_always_unauthorized_witness :
    authUser exDbTwitter (fun _ _ => true) "tradercat" "any secret guess" =
      Hstatus.unauthorized401 :=
  auth_twitter_always_unauthorized exDbTwitter (fun _ _ => true) "tradercat" "any secret guess"
    ⟨1, "tradercat", none, .twitter⟩ (by decide) (by decide) (by decide) rfl

/-- Claim C2 counterexample: Answer(1) succeeds on a reachable store, yet a
later reachable post-state — the owner deleting answer 1 through
DELETE /answers/1 — contains zero answers rows with `questionId = 1`,
refuting `exactly one Answer row with questionId = q exists` for every
post-state reachable from the successful Answer. -/
theorem answer_exactly_one_counterexample :
    (answerQuestion exDbPending 1 "RSI divergence." 1).1 = Hstatus.created201 ∧
    runOps (exOpsQA ++ [.answer 1 "RSI divergence." 1]) =
      (answerQuestion exDbPending 1 "RSI divergence." 1).2 ∧
    ((runOps (exOpsQA ++ [.answer 1 "RSI divergence." 1, .delAnswer 1 1])).answers.filter
      (fun a => a.questionId == 1)).length = 0 := by
  decide

/-- Claim C2 (amended): whenever Answer(q) succeeds, the insert and the
delete both take effect — afterwards q appears in no questions row and in no
GetUnanswered listing, and exactly one answers row with `questionId = q`
exists; whenever it fails, the store is unchanged. Moreover, in every store
reachable through the API, no id has both a questions row and an answers row,
and at most one answers row references any question id (exactly one until the
owner deletes that answer, which may leave zero) — so no question is ever
answered twice. -/
theorem answer_atomicity :
    (∀ (db : DB) (qid : Nat) (text : String) (callerId : Nat), dbInv db →
      ((answerQuestion db qid text callerId).1 = Hstatus.created201 →
        (∀ q ∈ (answerQuestion db qid text callerId).2.questions, q.id ≠ qid) ∧
        (∀ uid : Nat, ∀ q ∈ getUnansweredQuestions (answerQuestion db qid text callerId).2 uid,
          q.id ≠ qid) ∧
        ((answerQuestion db qid text callerId).2.answers.filter
          (fun a => a.questionId == qid)).length = 1) ∧
      ((answerQuestion db qid text callerId).1 ≠ Hstatus.created201 →
        (answerQuestion db qid text callerId).2 = db)) ∧
    (∀ ops : List Op,
      (∀ a ∈ (runOps ops).answers, ∀ q ∈ (runOps ops).questions, a.questionId ≠ q.id) ∧
      ∀ qid : Nat,
        ((runOps ops).answers.filter (fun a => a.questionId == qid)).length ≤ 1) := by
  constructor
  · intro db qid text callerId hinv
    unfold answerQuestion
    split
    · exact ⟨fun h => by simp at h, fun _ => rfl⟩
    split
    · exact ⟨fun h => by simp at h, fun _ => rfl⟩
    split
    · exact ⟨fun h => by simp at h, fun _ => rfl⟩
    next q hq =>
      split
      · exact ⟨fun h => by simp at h, fun _ => rfl⟩
      · refine ⟨fun _ => ⟨?_, ?_, ?_⟩, fun h => absurd rfl h⟩
        · intro q' hq'
          simp only [deleteQuestion, createAnswer, List.mem_filter] at hq'
          simpa using hq'.2
        · intro uid q' hq'
          simp only [getUnansweredQuestions, List.mem_filter] at hq'
          have hq'' := hq'.1
          simp only [deleteQuestion, createAnswer, List.mem_filter] at hq''
          simpa using hq''.2
        · have hqmem : q ∈ db.questions := List.mem_of_find?_eq_some hq
          have hqid : q.id = qid := by simpa using List.find?_some hq
          simp only [deleteQuestion, createAnswer, List.filter_append]
          rw [List.filter_eq_nil_iff.2 ?hnil]
          · simp
          case hnil =>
            intro a ha
            simp only [beq_iff_eq]
            exact fun hax => hinv.2.2.1 a ha q hqmem (hax.trans hqid.symm)
  · intro ops
    obtain ⟨_, _, h3, h4⟩ := dbInv_runOps ops
    exact ⟨h3, fun qid =>
      length_filter_le_one_of_nodup_map (fun a => a.questionId) (runOps ops).answers h4 qid⟩

/-- Witness for C2: on the reachable store with one pending question, the
successful Answer leaves exactly one answers row referencing question 1. -/
theorem answer_atomicity_witness :
    dbInv exDbPending ∧
    ((answerQuestion exDbPending 1 "RSI divergence." 1).2.answers.filter
      (fun a => a.questionId == 1)).length = 1 :=
  ⟨by decide,
   ((answer_atomicity.1 exDbPending 1 "RSI divergence." 1 (by decide)).1 (by decide)).2.2⟩

/-- Claim C10: the `unansweredQuestions` field returned by the stats route
always equals the live questions-row count minus the answers-row count for
the owner, so it is negative exactly when the owner has more answers than
currently pending questions. -/
theorem stats_unanswered_difference (db : DB) (caller : UserRow)
    (h : matchesLowerAlnum caller.handle = true) :
    (getStats db caller.handle caller).1 = Hstatus.ok200 ∧
    (getStats db caller.handle caller).2 =
      some ⟨countQuestionsByUserId db caller.id, countAnswersByUserId db caller.id,
        (countQuestionsByUserId db caller.id : Int) - (countAnswersByUserId db caller.id : Int)⟩ ∧
    (countQuestionsByUserId db caller.id < countAnswersByUserId db caller.id →
      ∃ p, (getStats db caller.handle caller).2 = some p ∧ p.unansweredQuestions < 0) := by
  have hmain : getStats db caller.handle caller =
      (Hstatus.ok200,
        some ⟨countQuestionsByUserId db caller.id, countAnswersByUserId db caller.id,
          (countQuestionsByUserId db caller.id : Int) -
            (countAnswersByUserId db caller.id : Int)⟩) := by
    simp [getStats, getUserStats, h]
  refine ⟨by rw [hmain], by rw [hmain], ?_⟩
  intro hlt
  refine ⟨_, by rw [hmain], ?_⟩
  show (countQuestionsByUserId db caller.id : Int) -
      (countAnswersByUserId db caller.id : Int) < 0
  omega

/-- Witness for C10: in the reachable store where the only question of
`abc123` has been answered, the stats route reports a negative
`unansweredQuestions` (0 live questions minus 1 answer). -/
theorem stats_unanswered_difference_witness :
    matchesLowerAlnum exUser1.handle = true ∧
    (∃ p, (getStats exDbAnswered exUser1.handle exUser1).2 = some p ∧
      p.unansweredQuestions < 0) :=
  ⟨by decide,
   (stats_unanswered_difference exDbAnswered exUser1 (by decide)).2.2 (by decide)⟩

/-- The app state after server start with the single user `abc123`. -/
def exApp0 : AppState := appInit exDbOne

/-- First submission of the burst. -/
def exApp1 : AppState :=
  (appPostQuestion exApp0 0 "1.2.3.4" "abc123" "What is your favorite indicator?").2

/-- Second submission of the burst. -/
def exApp2 : AppState :=
  (appPostQuestion exApp1 0 "1.2.3.4" "abc123" "What is your favorite indicator?").2

/-- Third submission of the burst. -/
def exApp3 : AppState :=
  (appPostQuestion exApp2 0 "1.2.3.4" "abc123" "What is your favorite indicator?").2

/-- Claim C6: the per-(IP, handle) question limiter is configured (3 per
minute) but mounted after the questions router, so a submission never reaches
it: its state is never consulted nor updated by any submission, and four
submissions from one IP to one handle at the same instant all succeed with
201 — the fourth is not rejected 429 as the claim requires. -/
theorem question_limiter_never_reached :
    (∀ (st : AppState) (now : Nat) (ip handle text : String),
      (appPostQuestion st now ip handle text).2.questionLimiter = st.questionLimiter) ∧
    (appPostQuestion exApp0 0 "1.2.3.4" "abc123" "What is your favorite indicator?").1 =
      Hstatus.created201 ∧
    (appPostQuestion exApp1 0 "1.2.3.4" "abc123" "What is your favorite indicator?").1 =
      Hstatus.created201 ∧
    (appPostQuestion exApp2 0 "1.2.3.4" "abc123" "What is your favorite indicator?").1 =
      Hstatus.created201 ∧
    (appPostQuestion exApp3 0 "1.2.3.4" "abc123" "What is your favorite indicator?").1 =
      Hstatus.created201 ∧
    questionLimiterInit.maxHits = 3 ∧ questionLimiterInit.windowMs = 60 * 1000 := by
  refine ⟨?_, by decide, by decide, by decide, by decide, rfl, rfl⟩
  intro st now ip handle text
  unfold appPostQuestion
  by_cases hg : (limiterHit st.globalLimiter now ip).1 = true <;> simp [hg]

/-- Claim C8 counterexample: a text matching the profanity pattern list is
accepted by the server-side Submit endpoint and stored as a questions row —
the profanity check does not run on the server. -/
theorem profanity_not_checked_by_server :
    containsProfanity "what the fuck is this" = true ∧
    (submitQuestion exDbOne "abc123" "what the fuck is this" "ip9").1 =
      Hstatus.created201 ∧
    (∃ q ∈ (submitQuestion exDbOne "abc123" "what the fuck is this" "ip9").2.questions,
      q.text = "what the fuck is this") := by
  decide

/-- Claim C8 (amended): the profanity pattern check runs only client-side —
the frontend question form refuses to issue the POST for a matching text —
while the server-side Submit endpoint stores every text that passes the
length/content validation rules, profane or not. -/
theorem profanity_check_client_side_only (db : DB) (handle text ip : String)
    (hh : matchesLowerAlnum handle = true)
    (ht : questionErrors text = [])
    (hu : getUserByHandle db handle ≠ none) :
    (submitQuestion db handle text ip).1 = Hstatus.created201 ∧
    (∃ q ∈ (submitQuestion db handle text ip).2.questions, q.text = jsTrim text) ∧
    (containsProfanity text = true → frontendSendQuestion text = none) := by
  cases hfind : getUserByHandle db handle with
  | none => exact absurd hfind hu
  | some u =>
    have hmain : submitQuestion db handle text ip =
        (.created201, (createQuestion db u.id (jsTrim text) ip).1) := by
      unfold submitQuestion
      rw [if_neg (by simp [hh]), if_neg (by simp [ht]), hfind]
    refine ⟨by rw [hmain], ?_, ?_⟩
    · rw [hmain]
      simp only [createQuestion]
      exact ⟨⟨db.nextQuestionId, u.id, jsTrim text, ip⟩, by simp, rfl⟩
    · intro hp
      unfold frontendSendQuestion
      by_cases hv : validateQuestionFront text = []
      · rw [if_neg (by simp [hv]), if_pos hp]
      · rw [if_pos (by simp [hv])]

/-- Witness for C8: the profane text is stored by the server while the
frontend form would have blocked it. -/
theorem profanity_check_client_side_only_witness :
    (submitQuestion exDbOne "abc123" "what the fuck is this" "ip8").1 =
      Hstatus.created201 ∧
    frontendSendQuestion "what the fuck is this" = none :=
  ⟨(profanity_check_client_side_only exDbOne "abc123" "what the fuck is this" "ip8"
      (by decide) (by decide) (by decide)).1,
   (profanity_check_client_side_only exDbOne "abc123" "what the fuck is this" "ip8"
      (by decide) (by decide) (by decide)).2.2 (by decide)⟩

end TraderFM
